import Mathlib

/-!
Shallow embedding of the claim-recovery workflow of the zeroriskagent
repository: the `claims`, `appeals`, `recovery_transactions` and
`payer_knowledge_graph` tables together with the trigger functions
`calculate_revenue_share`, `update_claim_on_recovery`,
`auto_update_claim_status_on_denial`, `auto_update_claim_status_on_appeal`
and `update_knowledge_graph_from_appeal` from the SQL migrations.

Monetary `decimal(12,2)` columns are modelled as integers in paise
(hundredths of INR); `agent_fee_percentage decimal(5,2)` is modelled as an
integer in hundredths of a percent, so the SQL range `BETWEEN 0 AND 50`
becomes `0 ≤ p ≤ 5000`; the generated column `success_rate decimal(5,4)` is
modelled in units of `10 ^ (-4)`.  PostgreSQL `ROUND(x, s)` on `numeric`
rounds half away from zero at scale `s`, and storing a `numeric` value into
a column of scale `s` rounds the same way; both are modelled by `sqlRound`.
`jsonb`, timestamp and identifier columns that no modelled check or trigger
reads are omitted.
-/

namespace ZeroRiskAgent

/-- PostgreSQL `ROUND` on `numeric`, and the rounding applied when a
`numeric` value is stored into a column of fixed scale: round half away
from zero.  `sqlRound num den` rounds the fraction `num / den` (for
`den > 0`) to an integer in the same fixed-point unit as `num`. -/
def sqlRound (num : ℤ) (den : ℕ) : ℤ :=
  if 0 ≤ num then (2 * num + (den : ℤ)) / (2 * (den : ℤ))
  else -((2 * (-num) + (den : ℤ)) / (2 * (den : ℤ)))

/-- Specification-level rounding on rationals: round half away from zero. -/
def roundHalfAwayFromZeroQ (q : ℚ) : ℤ :=
  if 0 ≤ q then ⌊q + 1 / 2⌋ else ⌈q - 1 / 2⌉

/-- `option holds`: a property holds of the content of an `Option`, or the
`Option` is empty.  This is exactly the SQL pattern
`x IS NULL OR <predicate on x>` used in the trigger guards. -/
def optionHolds {α : Type} (p : α → Prop) : Option α → Prop
  | none => True
  | some a => p a

instance {α : Type} (p : α → Prop) [DecidablePred p] :
    (o : Option α) → Decidable (optionHolds p o)
  | none => isTrue trivial
  | some a => inferInstanceAs (Decidable (p a))

/-- `claims.claim_status` enumeration (migration 20260111000002, lines 42-52). -/
inductive ClaimStatus
  | submitted
  | under_review
  | pending_documents
  | approved
  | partially_approved
  | denied
  | appealed
  | recovered
  | written_off
  deriving DecidableEq, Repr

/-- `appeals.appeal_status` enumeration (part_003, lines 32-41). -/
inductive AppealStatus
  | draft
  | submitted
  | under_review
  | additional_info_requested
  | accepted
  | partially_accepted
  | rejected
  | withdrawn
  deriving DecidableEq, Repr

/-- `appeals.appeal_type` enumeration (part_003, line 17). -/
inductive AppealType
  | reconsideration
  | review
  | grievance
  deriving DecidableEq, Repr

/-- `recovery_transactions.payment_status` enumeration (part_003, line 131). -/
inductive PaymentStatus
  | pending
  | processed
  | failed
  | disputed
  deriving DecidableEq, Repr

/-- `payer_knowledge_graph.pattern_type` enumeration (migration
20260111000004, lines 79-88). -/
inductive PatternType
  | denial_reason_pattern
  | approval_criteria
  | documentation_requirement
  | processing_time_pattern
  | appeal_success_factor
  | contact_escalation_path
  | coding_requirement
  | seasonal_pattern
  deriving DecidableEq, Repr

/-- A row of `claims` restricted to the fields the modelled triggers and
constraints read or write (migration 20260111000002). -/
structure Claim where
  claimed_amount : ℤ
  approved_amount : Option ℤ
  paid_amount : ℤ
  claim_status : ClaimStatus
  deriving DecidableEq, Repr

/-- The CHECK constraints of the `claims` table on the modelled fields:
`claimed_amount >= 0`, `approved_amount >= 0`,
`check_approved_lte_claimed`, `paid_amount >= 0`,
`check_paid_lte_claimed` (migration 20260111000002, lines 31-33, 70-71). -/
def Claim.checks (c : Claim) : Prop :=
  0 ≤ c.claimed_amount ∧
  optionHolds (fun a => 0 ≤ a ∧ a ≤ c.claimed_amount) c.approved_amount ∧
  0 ≤ c.paid_amount ∧
  c.paid_amount ≤ c.claimed_amount

instance (c : Claim) : Decidable c.checks := by
  unfold Claim.checks
  infer_instance

/-- A row of `appeals` restricted to the fields the modelled triggers and
constraints read (part_003, lines 9-63). -/
structure Appeal where
  appeal_level : ℤ
  appeal_type : AppealType
  appeal_status : AppealStatus
  outcome_amount : Option ℤ
  deriving DecidableEq, Repr

/-- The CHECK constraints of the `appeals` table on the modelled fields:
`appeal_level BETWEEN 1 AND 3` and `outcome_amount >= 0` (part_003, lines
16 and 49).  The status column is only constrained to the enumeration,
which the `AppealStatus` type already guarantees; no constraint relates a
new row to the previous row. -/
def Appeal.checks (a : Appeal) : Prop :=
  1 ≤ a.appeal_level ∧ a.appeal_level ≤ 3 ∧
  optionHolds (fun v => 0 ≤ v) a.outcome_amount

instance (a : Appeal) : Decidable a.checks := by
  unfold Appeal.checks
  infer_instance

/-- A row of `recovery_transactions` restricted to the fields the modelled
triggers and constraints read or write (part_003, lines 114-149). -/
structure RecoveryTx where
  recovery_amount : ℤ
  agent_fee_percentage : ℤ
  agent_fee_amount : ℤ
  hospital_amount : ℤ
  payment_status : PaymentStatus
  deriving DecidableEq, Repr

/-- The CHECK constraints of the `recovery_transactions` table on the
modelled fields: `recovery_amount > 0`,
`agent_fee_percentage BETWEEN 0 AND 50`, `agent_fee_amount >= 0`,
`hospital_amount >= 0` and the hard constraint `check_amounts_sum`
(part_003, lines 121, 126-128, 147). -/
def RecoveryTx.checks (t : RecoveryTx) : Prop :=
  0 < t.recovery_amount ∧
  0 ≤ t.agent_fee_percentage ∧ t.agent_fee_percentage ≤ 5000 ∧
  0 ≤ t.agent_fee_amount ∧
  0 ≤ t.hospital_amount ∧
  t.agent_fee_amount + t.hospital_amount = t.recovery_amount

instance (t : RecoveryTx) : Decidable t.checks := by
  unfold RecoveryTx.checks
  infer_instance

/-- Trigger function `calculate_revenue_share` (part_003, lines 166-185),
attached `BEFORE INSERT ON recovery_transactions`.  The `NEW` row supplies
`recovery_amount`, possibly-NULL `agent_fee_percentage` and
`payment_status`; when the percentage is NULL the hospital's configured
`recovery_fee_percentage` is used.  The agent fee is
`ROUND(recovery_amount * agent_fee_percentage / 100, 2)` and the hospital
amount is the difference.  In paise/centi-percent units the rounding
denominator is `10 ^ 4`. -/
def calculate_revenue_share (recovery_fee_percentage : ℤ)
    (recovery_amount : ℤ) (agent_fee_percentage : Option ℤ)
    (payment_status : PaymentStatus) : RecoveryTx :=
  let p := agent_fee_percentage.getD recovery_fee_percentage
  let fee := sqlRound (recovery_amount * p) 10000
  { recovery_amount := recovery_amount
    agent_fee_percentage := p
    agent_fee_amount := fee
    hospital_amount := recovery_amount - fee
    payment_status := payment_status }

/-- Trigger function `update_claim_on_recovery` (part_003, lines 190-212),
attached `AFTER INSERT OR UPDATE OF payment_status ON recovery_transactions
WHEN (NEW.payment_status = 'processed')`: it adds `recovery_amount` to the
claim's `paid_amount` and sets the claim status to `recovered` when the old
`paid_amount` plus the recovery amount reaches `claimed_amount`, leaving
the status unchanged otherwise.  The function applies per firing; no
transaction identifier is consulted. -/
def update_claim_on_recovery (t : RecoveryTx) (c : Claim) : Claim :=
  if t.payment_status = .processed then
    { c with
      paid_amount := c.paid_amount + t.recovery_amount
      claim_status :=
        if c.paid_amount + t.recovery_amount ≥ c.claimed_amount then .recovered
        else c.claim_status }
  else c

/-- Trigger function `auto_update_claim_status_on_denial` (migration
20260111000002, lines 160-174), attached `AFTER INSERT ON claim_denials`:
it sets the claim status to `denied` unless the current status is one of
`appealed`, `recovered`, `written_off`. -/
def auto_update_claim_status_on_denial (c : Claim) : Claim :=
  if c.claim_status ∉ ([.appealed, .recovered, .written_off] : List ClaimStatus) then
    { c with claim_status := .denied }
  else c

/-- Trigger function `auto_update_claim_status_on_appeal` (part_003, lines
81-109), attached `AFTER INSERT OR UPDATE ON appeals`, acting on the
appeal's owning claim.  `old` is the previous appeal status (`none` on
INSERT, matching the function's `OLD.appeal_status IS NULL` disjuncts).
When the appeal becomes `submitted` the claim is set to `appealed` with no
guard on the claim's current status; when it becomes `accepted` or
`partially_accepted` the claim is set to `recovered` and `approved_amount`
is set to the full claimed amount (accepted) or the outcome amount
(partially accepted). -/
def auto_update_claim_status_on_appeal (old : Option AppealStatus)
    (new : Appeal) (c : Claim) : Claim :=
  let c1 :=
    if new.appeal_status = .submitted ∧
        (old = none ∨ old ≠ some .submitted) then
      { c with claim_status := .appealed }
    else c
  if (new.appeal_status = .accepted ∨ new.appeal_status = .partially_accepted) ∧
      (old = none ∨ (old ≠ some .accepted ∧ old ≠ some .partially_accepted)) then
    { c1 with
      claim_status := .recovered
      approved_amount :=
        if new.appeal_status = .accepted then some c1.claimed_amount
        else new.outcome_amount }
  else c1

/-- The key of a `payer_knowledge_graph` row: the table's UNIQUE constraint
`(payer_id, pattern_type, pattern_key)` (migration 20260111000004,
line 120). -/
structure PatternKey where
  payer_id : ℕ
  pattern_type : PatternType
  pattern_key : String
  deriving DecidableEq, Repr

/-- The statistics columns of a `payer_knowledge_graph` row touched by the
aggregator (migration 20260111000004, lines 95-104).  `success_rate` is a
generated column, modelled as the derived accessor
`PatternStats.success_rate` below. -/
structure PatternStats where
  occurrence_count : ℕ
  success_count : ℕ
  avg_recovery_amount : ℤ
  total_recovery_amount : ℤ
  deriving DecidableEq, Repr

/-- Generated column `success_rate decimal(5,4)` (migration
20260111000004, lines 97-102): `ROUND(success_count / occurrence_count, 4)`
when `occurrence_count > 0`, else `0`; modelled in units of `10 ^ (-4)`. -/
def PatternStats.success_rate (p : PatternStats) : ℤ :=
  if 0 < p.occurrence_count then
    sqlRound ((p.success_count : ℤ) * 10000) p.occurrence_count
  else 0

/-- The knowledge-graph store: at most one `PatternStats` row per
`PatternKey`, per the table's UNIQUE constraint. -/
abbrev KGStore := PatternKey → Option PatternStats

/-- The empty knowledge-graph store. -/
def emptyKG : KGStore := fun _ => none

/-- The final appeal statuses the aggregator reacts to (migration
20260111000004, line 145). -/
def finalStatuses : List AppealStatus := [.accepted, .partially_accepted, .rejected]

/-- `v_success_count_delta` (migration 20260111000004, lines 152-155):
`1` when the appeal status is `accepted` or `partially_accepted`, else
`0`. -/
def v_success_count_delta (s : AppealStatus) : ℕ :=
  if s = .accepted ∨ s = .partially_accepted then 1 else 0

/-- The pattern key written by the aggregator (migration 20260111000004,
lines 169-171): the claim's payer, pattern type `appeal_success_factor`,
and pattern key `'appeal_level_' || NEW.appeal_level`. -/
def appealPatternKey (payer_id : ℕ) (new : Appeal) : PatternKey :=
  { payer_id := payer_id
    pattern_type := .appeal_success_factor
    pattern_key := "appeal_level_" ++ toString new.appeal_level }

/-- Trigger function `update_knowledge_graph_from_appeal` (migration
20260111000004, lines 137-199), attached `AFTER UPDATE ON appeals` (lines
201-203).  When the new appeal status is final (`accepted`,
`partially_accepted`, `rejected`) and the old one was not, it performs
`INSERT ... ON CONFLICT (payer_id, pattern_type, pattern_key) DO UPDATE`
on `payer_knowledge_graph`: a missing row is created with
`occurrence_count = 1`, `success_count = v_success_count_delta`, and both
recovery aggregates equal to `COALESCE(outcome_amount, 0)`; an existing row
gets `occurrence_count + 1`, `success_count + delta`,
`avg_recovery_amount = (avg * occurrence_count + amount) / (occurrence_count
+ 1)` stored at the column's 2-decimal scale, and
`total_recovery_amount + amount`.  The upsert is a single atomic statement.
`jsonb` and timestamp columns are not modelled. -/
def update_knowledge_graph_from_appeal (payer_id : ℕ)
    (old : Option AppealStatus) (new : Appeal) (kg : KGStore) : KGStore :=
  if new.appeal_status ∈ finalStatuses ∧
      optionHolds (fun s => s ∉ finalStatuses) old then
    fun k =>
      if k = appealPatternKey payer_id new then
        match kg (appealPatternKey payer_id new) with
        | none =>
            some { occurrence_count := 1
                   success_count := v_success_count_delta new.appeal_status
                   avg_recovery_amount := new.outcome_amount.getD 0
                   total_recovery_amount := new.outcome_amount.getD 0 }
        | some p =>
            some { occurrence_count := p.occurrence_count + 1
                   success_count :=
                     p.success_count + v_success_count_delta new.appeal_status
                   avg_recovery_amount :=
                     sqlRound
                       (p.avg_recovery_amount * (p.occurrence_count : ℤ) +
                         new.outcome_amount.getD 0)
                       (p.occurrence_count + 1)
                   total_recovery_amount :=
                     p.total_recovery_amount + new.outcome_amount.getD 0 }
      else kg k
  else kg

/-- Effect of an `INSERT` into `appeals` on the modelled state.  Per the
source's trigger attachments only `trigger_update_claim_on_appeal`
(`AFTER INSERT OR UPDATE`, part_003 lines 107-109) fires;
`trigger_update_knowledge_from_appeal` is `AFTER UPDATE` only (migration
20260111000004, lines 201-203), so the knowledge store is untouched. -/
def appealInsert (payer_id : ℕ) (new : Appeal) (c : Claim) (kg : KGStore) :
    Claim × KGStore :=
  (auto_update_claim_status_on_appeal none new c, kg)

/-- Effect of an `UPDATE` of an `appeals` row on the modelled state: both
`trigger_update_claim_on_appeal` and `trigger_update_knowledge_from_appeal`
fire (part_003 lines 107-109; migration 20260111000004 lines 201-203). -/
def appealUpdate (payer_id : ℕ) (old new : Appeal) (c : Claim)
    (kg : KGStore) : Claim × KGStore :=
  (auto_update_claim_status_on_appeal (some old.appeal_status) new c,
   update_knowledge_graph_from_appeal payer_id (some old.appeal_status) new kg)

/-- Admission of an `UPDATE` to an `appeals` row by the schema: the table's
constraints are row-local CHECKs on the new row (part_003, lines 9-63);
nothing in the DDL reads the previous row, so the old row does not
constrain the update. -/
def appealRowUpdate (oldRow newRow : Appeal) : Option Appeal :=
  if newRow.checks then some newRow else none

/-- Sequential application of a list of appeal-outcome events
`(old status, new row)` to the knowledge store; each element is one firing
of the atomic upsert in `update_knowledge_graph_from_appeal`. -/
def applyOutcomes (payer_id : ℕ) (l : List (AppealStatus × Appeal))
    (kg : KGStore) : KGStore :=
  l.foldl
    (fun s e => update_knowledge_graph_from_appeal payer_id (some e.1) e.2 s) kg

/-- The occurrence count stored at a key, `0` when no row exists. -/
def occAt (kg : KGStore) (k : PatternKey) : ℕ :=
  (kg k).elim 0 PatternStats.occurrence_count

/-- Store invariant maintained by the aggregator: every stored pattern has
`success_count ≤ occurrence_count` and a positive occurrence count. -/
def StoreInv (kg : KGStore) : Prop :=
  ∀ k p, kg k = some p →
    p.success_count ≤ p.occurrence_count ∧ 0 < p.occurrence_count

/-- An appeal row whose status has just become `accepted`, with an outcome
of 100.00 INR. -/
def appealAcceptedRow : Appeal :=
  { appeal_level := 1
    appeal_type := .reconsideration
    appeal_status := .accepted
    outcome_amount := some 10000 }

/-- A level-1 appeal row whose status has just become `rejected`. -/
def appealRejLv1Row : Appeal :=
  { appeal_level := 1
    appeal_type := .reconsideration
    appeal_status := .rejected
    outcome_amount := some 0 }

/-- An update image of `appealAcceptedRow` moving its terminal status back
to `draft`. -/
def appealReopenedRow : Appeal :=
  { appeal_level := 1
    appeal_type := .reconsideration
    appeal_status := .draft
    outcome_amount := some 10000 }

/-- A level-2 appeal row in the terminal status `rejected`. -/
def appealRejectedRow : Appeal :=
  { appeal_level := 2
    appeal_type := .review
    appeal_status := .rejected
    outcome_amount := none }

/-- An update image of `appealRejectedRow` moving its terminal status back
to `submitted`. -/
def appealResubmittedRow : Appeal :=
  { appeal_level := 2
    appeal_type := .review
    appeal_status := .submitted
    outcome_amount := none }

/-- A claim already in the terminal status `recovered`, fully paid. -/
def claimRecovered : Claim :=
  { claimed_amount := 10000
    approved_amount := none
    paid_amount := 10000
    claim_status := .recovered }

/-- An appeal row whose status has just become `submitted`. -/
def appealSubmittedRow : Appeal :=
  { appeal_level := 1
    appeal_type := .reconsideration
    appeal_status := .submitted
    outcome_amount := none }

/-- A processed recovery transaction of 40.00 INR. -/
def txDup : RecoveryTx :=
  { recovery_amount := 4000
    agent_fee_percentage := 2500
    agent_fee_amount := 1000
    hospital_amount := 3000
    payment_status := .processed }

/-- A claim of 100.00 INR with nothing paid yet. -/
def claimDup : Claim :=
  { claimed_amount := 10000
    approved_amount := none
    paid_amount := 0
    claim_status := .denied }

/-- For a nonnegative numerator and positive denominator, `sqlRound` is
round-half-away-from-zero of the exact fraction. -/
theorem sqlRound_eq_roundQ (num : ℤ) (den : ℕ) (hden : 0 < den)
    (hnum : 0 ≤ num) :
    sqlRound num den = roundHalfAwayFromZeroQ ((num : ℚ) / (den : ℚ)) := by
  have hdenQ : (0 : ℚ) < (den : ℚ) := by exact_mod_cast hden
  have hq : 0 ≤ (num : ℚ) / (den : ℚ) :=
    div_nonneg (by exact_mod_cast hnum) hdenQ.le
  rw [sqlRound, roundHalfAwayFromZeroQ, if_pos hnum, if_pos hq]
  have key : (num : ℚ) / (den : ℚ) + 1 / 2 =
      ((2 * num + (den : ℤ) : ℤ) : ℚ) / ((2 * den : ℕ) : ℚ) := by
    have h2 : (den : ℚ) ≠ 0 := hdenQ.ne'
    push_cast
    field_simp
    ring
  rw [key, Rat.floor_intCast_div_natCast]
  push_cast
  rfl

/-- `sqlRound` of a nonnegative fraction is nonnegative. -/
theorem sqlRound_nonneg (num : ℤ) (den : ℕ) (h : 0 ≤ num) :
    0 ≤ sqlRound num den := by
  rw [sqlRound, if_pos h]
  exact Int.ediv_nonneg (by linarith [Int.natCast_nonneg den]) (by positivity)

/-- The computed agent fee never exceeds the recovery amount while the fee
percentage is within the schema's `BETWEEN 0 AND 50` range. -/
theorem agent_fee_le (r p : ℤ) (hr : 0 < r) (hp0 : 0 ≤ p) (hp1 : p ≤ 5000) :
    sqlRound (r * p) 10000 ≤ r := by
  rw [sqlRound, if_pos (mul_nonneg hr.le hp0)]
  have hc : ((10000 : ℕ) : ℤ) = 10000 := by norm_num
  rw [hc]
  have h1 : 2 * (r * p) + 10000 ≤ 20000 * r := by
    nlinarith [mul_le_mul_of_nonneg_left hp1 (by linarith : (0 : ℤ) ≤ 2 * r)]
  have h2 : (2 : ℤ) * 10000 = 20000 := by norm_num
  rw [h2]
  calc (2 * (r * p) + 10000) / 20000 ≤ (20000 * r) / 20000 :=
        Int.ediv_le_ediv (by norm_num) h1
    _ = r := Int.mul_ediv_cancel_left r (by norm_num)

/-- C1: for a fee percentage in `[0, 50]` and a positive recovery amount,
the row produced by the `calculate_revenue_share` trigger satisfies every
CHECK of `recovery_transactions` — in particular `agent_fee_amount +
hospital_amount = recovery_amount` exactly — and every row admitted by the
table's CHECKs (hence every subsequently updated row) satisfies that sum
equation, by the `check_amounts_sum` constraint. -/
theorem agent_fee_plus_hospital_eq_recovery
    (recovery_fee_percentage recovery_amount : ℤ) (pOpt : Option ℤ)
    (ps : PaymentStatus) (hr : 0 < recovery_amount)
    (hp0 : 0 ≤ pOpt.getD recovery_fee_percentage)
    (hp1 : pOpt.getD recovery_fee_percentage ≤ 5000) :
    (calculate_revenue_share recovery_fee_percentage recovery_amount pOpt ps).checks ∧
    (calculate_revenue_share recovery_fee_percentage recovery_amount pOpt ps).agent_fee_amount +
        (calculate_revenue_share recovery_fee_percentage recovery_amount pOpt ps).hospital_amount =
      (calculate_revenue_share recovery_fee_percentage recovery_amount pOpt ps).recovery_amount ∧
    ∀ t : RecoveryTx, t.checks →
      t.agent_fee_amount + t.hospital_amount = t.recovery_amount := by
  refine ⟨?_, ?_, fun t ht => ht.2.2.2.2.2⟩
  · unfold calculate_revenue_share RecoveryTx.checks
    simp only
    refine ⟨hr, hp0, hp1, ?_, ?_, by ring⟩
    · exact sqlRound_nonneg _ _ (mul_nonneg hr.le hp0)
    · have h := agent_fee_le recovery_amount _ hr hp0 hp1
      linarith
  · unfold calculate_revenue_share
    simp only
    ring

/-- Witness for C1 at a concrete input: recovery 100.01 INR, percentage
defaulted from a hospital rate of 20.00%. -/
theorem agent_fee_plus_hospital_eq_recovery_witness :
    (0 : ℤ) < 10001 ∧
    ((calculate_revenue_share 2000 10001 none .pending).checks ∧
      (calculate_revenue_share 2000 10001 none .pending).agent_fee_amount +
          (calculate_revenue_share 2000 10001 none .pending).hospital_amount =
        (calculate_revenue_share 2000 10001 none .pending).recovery_amount ∧
      ∀ t : RecoveryTx, t.checks →
        t.agent_fee_amount + t.hospital_amount = t.recovery_amount) :=
  ⟨by decide,
   agent_fee_plus_hospital_eq_recovery 2000 10001 none .pending
     (by decide) (by decide) (by decide)⟩

/-- C2: the split is `feeAmount = round(recoveryAmount * feePercentage /
100)` with round-half-away-from-zero at the currency's 2-decimal scale
(in paise/centi-percent units the divisor is `10 ^ 4`), `hospitalAmount`
is the subtraction `recoveryAmount - feeAmount`, a missing event
percentage falls back to the hospital's configured rate, and the spec
scenario `recoveryAmount = 60000 INR, feePercentage = 25` yields
`feeAmount = 15000 INR`, `hospitalAmount = 45000 INR`. -/
theorem revenue_share_split_spec
    (recovery_fee_percentage recovery_amount : ℤ) (pOpt : Option ℤ)
    (ps : PaymentStatus) (hr : 0 < recovery_amount)
    (hp0 : 0 ≤ pOpt.getD recovery_fee_percentage) :
    (calculate_revenue_share recovery_fee_percentage recovery_amount pOpt ps).agent_fee_amount =
      roundHalfAwayFromZeroQ
        (((recovery_amount * pOpt.getD recovery_fee_percentage : ℤ) : ℚ) / 10000) ∧
    (calculate_revenue_share recovery_fee_percentage recovery_amount pOpt ps).hospital_amount =
      (calculate_revenue_share recovery_fee_percentage recovery_amount pOpt ps).recovery_amount -
        (calculate_revenue_share recovery_fee_percentage recovery_amount pOpt ps).agent_fee_amount ∧
    (pOpt = none →
      (calculate_revenue_share recovery_fee_percentage recovery_amount pOpt ps).agent_fee_percentage =
        recovery_fee_percentage) ∧
    (calculate_revenue_share recovery_fee_percentage 6000000 (some 2500) ps).agent_fee_amount =
      1500000 ∧
    (calculate_revenue_share recovery_fee_percentage 6000000 (some 2500) ps).hospital_amount =
      4500000 := by
  refine ⟨?_, ?_, ?_, by rfl, by rfl⟩
  · unfold calculate_revenue_share
    simp only
    have h := sqlRound_eq_roundQ (recovery_amount * pOpt.getD recovery_fee_percentage)
      10000 (by norm_num) (mul_nonneg hr.le hp0)
    rw [h]
    norm_num
  · rfl
  · intro h
    subst h
    unfold calculate_revenue_share
    simp [Option.getD]

/-- Witness for C2 at a concrete input: recovery 55.55 INR with an explicit
25.00% fee. -/
theorem revenue_share_split_spec_witness :
    (0 : ℤ) < 5555 ∧
    ((calculate_revenue_share 1000 5555 (some 2500) .pending).agent_fee_amount =
        roundHalfAwayFromZeroQ (((5555 * 2500 : ℤ) : ℚ) / 10000) ∧
      (calculate_revenue_share 1000 5555 (some 2500) .pending).hospital_amount =
        (calculate_revenue_share 1000 5555 (some 2500) .pending).recovery_amount -
          (calculate_revenue_share 1000 5555 (some 2500) .pending).agent_fee_amount ∧
      ((some (2500 : ℤ)) = none →
        (calculate_revenue_share 1000 5555 (some 2500) .pending).agent_fee_percentage = 1000) ∧
      (calculate_revenue_share 1000 6000000 (some 2500) .pending).agent_fee_amount = 1500000 ∧
      (calculate_revenue_share 1000 6000000 (some 2500) .pending).hospital_amount = 4500000) :=
  ⟨by decide,
   revenue_share_split_spec 1000 5555 (some 2500) .pending (by decide) (by decide)⟩

/-- Counterexample to C3: submitting an appeal for a claim already in
`recovered` status is not rejected — `auto_update_claim_status_on_appeal`
has no guard on the claim's current status and moves the claim out of its
terminal status to `appealed`. -/
theorem appeal_submit_moves_recovered_claim :
    claimRecovered.claim_status = .recovered ∧
    (auto_update_claim_status_on_appeal (some .draft) appealSubmittedRow
        claimRecovered).claim_status = .appealed ∧
    ClaimStatus.appealed ≠ ClaimStatus.recovered := by decide

/-- C3 as amended: terminal claim statuses are absorbing only for the
denial trigger — `auto_update_claim_status_on_denial` leaves a claim in
`recovered` or `written_off` completely unchanged — while an appeal
becoming `submitted` sets a `recovered` claim's status to `appealed`
instead of rejecting the transition (no `TransitionRejected` exists in the
code). -/
theorem terminal_claim_denial_guard (c : Claim) (old : Option AppealStatus)
    (new : Appeal)
    (hterm : c.claim_status = .recovered ∨ c.claim_status = .written_off) :
    auto_update_claim_status_on_denial c = c ∧
    (c.claim_status = .recovered → new.appeal_status = .submitted →
      old ≠ some .submitted →
      (auto_update_claim_status_on_appeal old new c).claim_status =
        .appealed) := by
  constructor
  · rcases hterm with h | h <;>
      simp [auto_update_claim_status_on_denial, h]
  · intro _ h2 h3
    simp [auto_update_claim_status_on_appeal, h2, h3]

/-- Witness for the amended C3 at a concrete input. -/
theorem terminal_claim_denial_guard_witness :
    (claimRecovered.claim_status = .recovered ∨
      claimRecovered.claim_status = .written_off) ∧
    auto_update_claim_status_on_denial claimRecovered = claimRecovered ∧
    (auto_update_claim_status_on_appeal (some .draft) appealSubmittedRow
        claimRecovered).claim_status = .appealed :=
  ⟨Or.inl rfl,
   (terminal_claim_denial_guard claimRecovered (some .draft) appealSubmittedRow
      (Or.inl rfl)).1,
   (terminal_claim_denial_guard claimRecovered (some .draft) appealSubmittedRow
      (Or.inl rfl)).2 rfl rfl (by decide)⟩

/-- C4: applying a processed recovery transaction adds exactly
`recovery_amount` to `paid_amount`, sets the status to `recovered` when the
resulting paid amount reaches `claimed_amount` and leaves it unchanged
otherwise, and touches no other modelled claim field. -/
theorem update_claim_on_recovery_spec (t : RecoveryTx) (c : Claim)
    (h : t.payment_status = .processed) :
    (update_claim_on_recovery t c).paid_amount =
      c.paid_amount + t.recovery_amount ∧
    (update_claim_on_recovery t c).claim_status =
      (if c.paid_amount + t.recovery_amount ≥ c.claimed_amount then
        ClaimStatus.recovered else c.claim_status) ∧
    (update_claim_on_recovery t c).claimed_amount = c.claimed_amount ∧
    (update_claim_on_recovery t c).approved_amount = c.approved_amount := by
  simp [update_claim_on_recovery, h]

/-- Witness for C4 at a concrete input. -/
theorem update_claim_on_recovery_spec_witness :
    txDup.payment_status = .processed ∧
    ((update_claim_on_recovery txDup claimDup).paid_amount =
        claimDup.paid_amount + txDup.recovery_amount ∧
      (update_claim_on_recovery txDup claimDup).claim_status =
        (if claimDup.paid_amount + txDup.recovery_amount ≥
            claimDup.claimed_amount then
          ClaimStatus.recovered else claimDup.claim_status) ∧
      (update_claim_on_recovery txDup claimDup).claimed_amount =
        claimDup.claimed_amount ∧
      (update_claim_on_recovery txDup claimDup).approved_amount =
        claimDup.approved_amount) :=
  ⟨rfl, update_claim_on_recovery_spec txDup claimDup rfl⟩

/-- Counterexample to C5: replaying the same processed recovery transaction
is not a no-op — the trigger consults no transaction identifier, so the
second application increases `paid_amount` again (8000 instead of the 4000
a deduplicated replay would leave). -/
theorem duplicate_recovery_double_applies :
    (update_claim_on_recovery txDup claimDup).paid_amount = 4000 ∧
    (update_claim_on_recovery txDup
        (update_claim_on_recovery txDup claimDup)).paid_amount = 8000 := by
  decide

/-- C5 as amended: no deduplication by transaction id exists — every firing
of the processed-recovery trigger adds `recovery_amount` to `paid_amount`
again, so a replayed duplicate increases `paid_amount` by another full
amount; `paid_amount ≤ claimed_amount` is maintained only by the
`check_paid_lte_claimed` CHECK of the `claims` table, which rejects a
violating update as an error rather than treating it as a no-op. -/
theorem recovery_replay_not_deduplicated (t : RecoveryTx) (c : Claim)
    (h : t.payment_status = .processed) :
    (update_claim_on_recovery t (update_claim_on_recovery t c)).paid_amount =
      c.paid_amount + 2 * t.recovery_amount ∧
    ∀ c' : Claim, c'.checks → c'.paid_amount ≤ c'.claimed_amount := by
  constructor
  · simp [update_claim_on_recovery, h]
    ring
  · exact fun c' hc => hc.2.2.2

/-- Witness for the amended C5 at a concrete input. -/
theorem recovery_replay_not_deduplicated_witness :
    txDup.payment_status = .processed ∧
    ((update_claim_on_recovery txDup
        (update_claim_on_recovery txDup claimDup)).paid_amount =
      claimDup.paid_amount + 2 * txDup.recovery_amount ∧
    ∀ c' : Claim, c'.checks → c'.paid_amount ≤ c'.claimed_amount) :=
  ⟨rfl, recovery_replay_not_deduplicated txDup claimDup rfl⟩

/-- When the aggregator guard fails (the new status is not final, or the
old one already was), the knowledge store is untouched. -/
theorem update_kg_no (payer : ℕ) (old : AppealStatus) (new : Appeal)
    (kg : KGStore)
    (h : ¬(new.appeal_status ∈ finalStatuses ∧ old ∉ finalStatuses)) :
    update_knowledge_graph_from_appeal payer (some old) new kg = kg := by
  unfold update_knowledge_graph_from_appeal
  exact if_neg (fun hc => h ⟨hc.1, hc.2⟩)

/-- Pointwise value of the knowledge store after a guarded aggregator
firing. -/
theorem update_kg_eq (payer : ℕ) (old : AppealStatus) (new : Appeal)
    (kg : KGStore) (h1 : new.appeal_status ∈ finalStatuses)
    (h2 : old ∉ finalStatuses) (k : PatternKey) :
    update_knowledge_graph_from_appeal payer (some old) new kg k =
      if k = appealPatternKey payer new then
        match kg (appealPatternKey payer new) with
        | none =>
            some { occurrence_count := 1
                   success_count := v_success_count_delta new.appeal_status
                   avg_recovery_amount := new.outcome_amount.getD 0
                   total_recovery_amount := new.outcome_amount.getD 0 }
        | some p =>
            some { occurrence_count := p.occurrence_count + 1
                   success_count :=
                     p.success_count + v_success_count_delta new.appeal_status
                   avg_recovery_amount :=
                     sqlRound
                       (p.avg_recovery_amount * (p.occurrence_count : ℤ) +
                         new.outcome_amount.getD 0)
                       (p.occurrence_count + 1)
                   total_recovery_amount :=
                     p.total_recovery_amount + new.outcome_amount.getD 0 }
      else kg k := by
  unfold update_knowledge_graph_from_appeal
  rw [if_pos ⟨h1, h2⟩]

/-- C6: the aggregator runs exactly on an update whose new appeal status is
final (`accepted`, `partially_accepted`, `rejected`) and whose old status
was not — re-applying an update to an already-final appeal leaves the store
unchanged — and its effect on the pattern keyed by (payer,
`appeal_success_factor`, `appeal_level_<level>`) is: create with
`occurrence_count = 1`, `success_count` = the success indicator, and both
recovery aggregates equal to the outcome amount when no row exists;
otherwise increment `occurrence_count`, add the success indicator, set
`avg_recovery_amount` to `(avg * old_count + amount) / new_count` at the
column's 2-decimal scale, and add the amount to `total_recovery_amount`;
no other key changes. -/
theorem knowledge_aggregator_spec (payer : ℕ) (old : AppealStatus)
    (new : Appeal) (kg : KGStore) :
    (old ∈ finalStatuses →
      update_knowledge_graph_from_appeal payer (some old) new kg = kg) ∧
    (new.appeal_status ∉ finalStatuses →
      update_knowledge_graph_from_appeal payer (some old) new kg = kg) ∧
    (new.appeal_status ∈ finalStatuses → old ∉ finalStatuses →
      (∀ k, k ≠ appealPatternKey payer new →
        update_knowledge_graph_from_appeal payer (some old) new kg k = kg k) ∧
      (kg (appealPatternKey payer new) = none →
        update_knowledge_graph_from_appeal payer (some old) new kg
            (appealPatternKey payer new) =
          some { occurrence_count := 1
                 success_count := v_success_count_delta new.appeal_status
                 avg_recovery_amount := new.outcome_amount.getD 0
                 total_recovery_amount := new.outcome_amount.getD 0 }) ∧
      (∀ p, kg (appealPatternKey payer new) = some p →
        update_knowledge_graph_from_appeal payer (some old) new kg
            (appealPatternKey payer new) =
          some { occurrence_count := p.occurrence_count + 1
                 success_count :=
                   p.success_count + v_success_count_delta new.appeal_status
                 avg_recovery_amount :=
                   sqlRound
                     (p.avg_recovery_amount * (p.occurrence_count : ℤ) +
                       new.outcome_amount.getD 0)
                     (p.occurrence_count + 1)
                 total_recovery_amount :=
                   p.total_recovery_amount + new.outcome_amount.getD 0 })) := by
  refine ⟨?_, ?_, ?_⟩
  · intro h
    exact update_kg_no payer old new kg (fun hc => hc.2 h)
  · intro h
    exact update_kg_no payer old new kg (fun hc => h hc.1)
  · intro h1 h2
    refine ⟨?_, ?_, ?_⟩
    · intro k hk
      rw [update_kg_eq payer old new kg h1 h2 k, if_neg hk]
    · intro hnone
      rw [update_kg_eq payer old new kg h1 h2 _, if_pos rfl, hnone]
    · intro p hp
      rw [update_kg_eq payer old new kg h1 h2 _, if_pos rfl, hp]

/-- Witness for C6 at a concrete input: first terminal outcome for a key. -/
theorem knowledge_aggregator_spec_witness :
    AppealStatus.accepted ∈ finalStatuses ∧
    AppealStatus.draft ∉ finalStatuses ∧
    update_knowledge_graph_from_appeal 7 (some .draft) appealAcceptedRow
        emptyKG (appealPatternKey 7 appealAcceptedRow) =
      some { occurrence_count := 1
             success_count := 1
             avg_recovery_amount := 10000
             total_recovery_amount := 10000 } :=
  ⟨by decide, by decide,
   ((knowledge_aggregator_spec 7 .draft appealAcceptedRow emptyKG).2.2
      (by decide) (by decide)).2.1 rfl⟩

/-- The success indicator is at most one. -/
theorem v_success_count_delta_le_one (s : AppealStatus) :
    v_success_count_delta s ≤ 1 := by
  unfold v_success_count_delta
  split <;> omega

/-- One guarded or unguarded aggregator firing preserves the store
invariant. -/
theorem StoreInv_update (payer : ℕ) (old : AppealStatus) (new : Appeal)
    (kg : KGStore) (h : StoreInv kg) :
    StoreInv (update_knowledge_graph_from_appeal payer (some old) new kg) := by
  by_cases hg : new.appeal_status ∈ finalStatuses ∧ old ∉ finalStatuses
  · intro k p hp
    rw [update_kg_eq payer old new kg hg.1 hg.2 k] at hp
    by_cases hk : k = appealPatternKey payer new
    · rw [if_pos hk] at hp
      cases hkg : kg (appealPatternKey payer new) with
      | none =>
          rw [hkg] at hp
          have hdelta := v_success_count_delta_le_one new.appeal_status
          cases hp
          exact ⟨by simpa using hdelta, by simp⟩
      | some q =>
          rw [hkg] at hp
          have hq := h _ q hkg
          have hdelta := v_success_count_delta_le_one new.appeal_status
          cases hp
          refine ⟨?_, ?_⟩ <;> simp <;> omega
    · rw [if_neg hk] at hp
      exact h k p hp
  · rw [update_kg_no payer old new kg hg]
    exact h

/-- Folding any list of appeal-outcome events preserves the store
invariant. -/
theorem StoreInv_applyOutcomes (payer : ℕ)
    (l : List (AppealStatus × Appeal)) (kg : KGStore) (h : StoreInv kg) :
    StoreInv (applyOutcomes payer l kg) := by
  induction l generalizing kg with
  | nil => exact h
  | cons e t ih =>
      exact ih _ (StoreInv_update payer e.1 e.2 kg h)

/-- The empty store satisfies the invariant. -/
theorem StoreInv_emptyKG : StoreInv emptyKG :=
  fun _ _ h => Option.noConfusion h

/-- C7 as amended: after any sequence of aggregator updates starting from a
store satisfying the invariant, every stored pattern has
`success_count ≤ occurrence_count` with a positive occurrence count, and
the generated `success_rate` column equals `success_count /
occurrence_count` rounded half away from zero at the column's 4-decimal
scale — recomputed from the two counts, never stored independently. -/
theorem knowledge_counts_invariant (payer : ℕ)
    (l : List (AppealStatus × Appeal)) (kg : KGStore) (hkg : StoreInv kg) :
    ∀ k p, applyOutcomes payer l kg k = some p →
      p.success_count ≤ p.occurrence_count ∧
      0 < p.occurrence_count ∧
      p.success_rate =
        roundHalfAwayFromZeroQ
          (((p.success_count : ℚ) * 10000) / (p.occurrence_count : ℚ)) := by
  intro k p hp
  have hinv := StoreInv_applyOutcomes payer l kg hkg k p hp
  refine ⟨hinv.1, hinv.2, ?_⟩
  unfold PatternStats.success_rate
  rw [if_pos hinv.2]
  rw [sqlRound_eq_roundQ ((p.success_count : ℤ) * 10000) p.occurrence_count
    hinv.2 (by positivity)]
  congr 1
  push_cast
  ring

/-- Witness for the amended C7 at a concrete input: one success out of
three outcomes gives a stored rate of 0.3333. -/
theorem knowledge_counts_invariant_witness :
    (1 : ℕ) ≤ 3 ∧ (0 : ℕ) < 3 ∧
    ({ occurrence_count := 3
       success_count := 1
       avg_recovery_amount := 3333
       total_recovery_amount := 10000 } : PatternStats).success_rate =
      roundHalfAwayFromZeroQ (((1 : ℚ) * 10000) / (3 : ℚ)) :=
  knowledge_counts_invariant 0
    [(.draft, appealAcceptedRow), (.draft, appealRejLv1Row),
      (.draft, appealRejLv1Row)]
    emptyKG StoreInv_emptyKG (appealPatternKey 0 appealAcceptedRow)
    { occurrence_count := 3
      success_count := 1
      avg_recovery_amount := 3333
      total_recovery_amount := 10000 } (by decide)

/-- Counterexample to C7: the stored `success_rate` is
`ROUND(success_count / occurrence_count, 4)`, not the exact quotient — for
the aggregator-produced pattern with one success in three occurrences the
stored rate is 0.3333 while the exact quotient is 1/3. -/
theorem success_rate_rounded_ne_exact :
    applyOutcomes 0
        [(.draft, appealAcceptedRow), (.draft, appealRejLv1Row),
          (.draft, appealRejLv1Row)]
        emptyKG (appealPatternKey 0 appealAcceptedRow) =
      some { occurrence_count := 3
             success_count := 1
             avg_recovery_amount := 3333
             total_recovery_amount := 10000 } ∧
    ¬((({ occurrence_count := 3
          success_count := 1
          avg_recovery_amount := 3333
          total_recovery_amount := 10000 } : PatternStats).success_rate : ℚ) /
          10000 =
        (1 : ℚ) / 3) := by
  constructor
  · decide
  · have hrate : ({ occurrence_count := 3
                    success_count := 1
                    avg_recovery_amount := 3333
                    total_recovery_amount := 10000 } : PatternStats).success_rate = 3333 := by
      decide
    rw [hrate]
    norm_num

/-- Counterexample to C8: an `UPDATE` moving an appeal out of the terminal
status `accepted` back to `draft` passes every constraint of the `appeals`
table and is applied, not rejected. -/
theorem terminal_appeal_update_admitted :
    appealAcceptedRow.appeal_status = .accepted ∧
    appealRowUpdate appealAcceptedRow appealReopenedRow =
      some appealReopenedRow ∧
    appealReopenedRow.appeal_status ≠ appealAcceptedRow.appeal_status := by
  decide

/-- C8 as amended: the `appeals` schema constrains `appeal_status` to the
eight enumerated values but enforces no transition restriction — any update
whose new row satisfies the table's row-local CHECKs is admitted, including
one that moves a terminal appeal to any other status. -/
theorem appeal_update_unrestricted (oldRow newRow : Appeal)
    (h : newRow.checks) :
    appealRowUpdate oldRow newRow = some newRow := by
  simp [appealRowUpdate, h]

/-- Witness for the amended C8 at a concrete input: a rejected appeal moved
back to `submitted` is admitted. -/
theorem appeal_update_unrestricted_witness :
    appealResubmittedRow.checks ∧
    appealRowUpdate appealRejectedRow appealResubmittedRow =
      some appealResubmittedRow :=
  ⟨by decide,
   appeal_update_unrestricted appealRejectedRow appealResubmittedRow
     (by decide)⟩

/-- One guarded aggregator firing increments the occurrence count at its
key by exactly one. -/
theorem occAt_update (payer : ℕ) (old : AppealStatus) (new : Appeal)
    (kg : KGStore) (h1 : new.appeal_status ∈ finalStatuses)
    (h2 : old ∉ finalStatuses) :
    occAt (update_knowledge_graph_from_appeal payer (some old) new kg)
        (appealPatternKey payer new) =
      occAt kg (appealPatternKey payer new) + 1 := by
  unfold occAt
  rw [update_kg_eq payer old new kg h1 h2 _, if_pos rfl]
  cases hkg : kg (appealPatternKey payer new) <;> simp [hkg]

/-- C9: the aggregator's store operation is the single atomic
`INSERT ... ON CONFLICT DO UPDATE` statement, so an interleaving of
concurrent terminal-outcome events is a sequence of whole firings; for
every such sequence in which each event passes the guard and targets the
same pattern key, the resulting occurrence count is the initial count plus
the number of events — each event counted exactly once, in every order. -/
theorem concurrent_outcomes_occurrence_count (payer : ℕ) (k : PatternKey)
    (l : List (AppealStatus × Appeal)) (kg : KGStore)
    (h : ∀ e ∈ l, e.2.appeal_status ∈ finalStatuses ∧
      e.1 ∉ finalStatuses ∧ appealPatternKey payer e.2 = k) :
    occAt (applyOutcomes payer l kg) k = occAt kg k + l.length := by
  induction l generalizing kg with
  | nil => simp [applyOutcomes]
  | cons e t ih =>
      obtain ⟨h1, h2, h3⟩ := h e (List.mem_cons_self e t)
      have hstep := occAt_update payer e.1 e.2 kg h1 h2
      rw [h3] at hstep
      have htail := ih
        (update_knowledge_graph_from_appeal payer (some e.1) e.2 kg)
        (fun e' he' => h e' (List.mem_cons_of_mem e he'))
      calc occAt (applyOutcomes payer (e :: t) kg) k
          = occAt (applyOutcomes payer t
              (update_knowledge_graph_from_appeal payer (some e.1) e.2 kg)) k :=
            rfl
        _ = occAt kg k + 1 + t.length := by rw [htail, hstep]
        _ = occAt kg k + (e :: t).length := by rw [List.length_cons]; omega

/-- Witness for C9 at a concrete input: two concurrent outcomes for the
same key, applied in sequence, are each counted once. -/
theorem concurrent_outcomes_occurrence_count_witness :
    occAt
        (applyOutcomes 0
          [(.draft, appealAcceptedRow), (.submitted, appealRejLv1Row)]
          emptyKG)
        (appealPatternKey 0 appealAcceptedRow) =
      occAt emptyKG (appealPatternKey 0 appealAcceptedRow) + 2 :=
  concurrent_outcomes_occurrence_count 0 (appealPatternKey 0 appealAcceptedRow)
    [(.draft, appealAcceptedRow), (.submitted, appealRejLv1Row)]
    emptyKG (by decide)

/-- C10: inserting an appeal already carrying a terminal status fires only
the claim-status trigger — the knowledge trigger is attached `AFTER UPDATE`
only — so every `payer_knowledge_graph` record is left unchanged while the
owning claim's status and approved amount are updated. -/
theorem appeal_insert_frame (payer : ℕ) (new : Appeal) (c : Claim)
    (kg : KGStore) :
    (∀ k, (appealInsert payer new c kg).2 k = kg k) ∧
    (new.appeal_status = .accepted →
      (appealInsert payer new c kg).1.claim_status = .recovered ∧
      (appealInsert payer new c kg).1.approved_amount =
        some c.claimed_amount) ∧
    (new.appeal_status = .partially_accepted →
      (appealInsert payer new c kg).1.claim_status = .recovered ∧
      (appealInsert payer new c kg).1.approved_amount =
        new.outcome_amount) := by
  refine ⟨fun k => rfl, ?_, ?_⟩
  · intro h
    constructor <;> simp [appealInsert, auto_update_claim_status_on_appeal, h]
  · intro h
    constructor <;> simp [appealInsert, auto_update_claim_status_on_appeal, h]

/-- Witness for C10 at a concrete input. -/
theorem appeal_insert_frame_witness :
    (appealInsert 0 appealAcceptedRow claimDup emptyKG).2
        (appealPatternKey 0 appealAcceptedRow) =
      emptyKG (appealPatternKey 0 appealAcceptedRow) ∧
    (appealInsert 0 appealAcceptedRow claimDup emptyKG).1.claim_status =
      .recovered ∧
    (appealInsert 0 appealAcceptedRow claimDup emptyKG).1.approved_amount =
      some claimDup.claimed_amount :=
  ⟨(appeal_insert_frame 0 appealAcceptedRow claimDup emptyKG).1 _,
   ((appeal_insert_frame 0 appealAcceptedRow claimDup emptyKG).2.1 rfl).1,
   ((appeal_insert_frame 0 appealAcceptedRow claimDup emptyKG).2.1 rfl).2⟩

end ZeroRiskAgent
